import Mathlib

/-!
Verification of the solution-construction core of the counter and token
client applications (src/counter/counter-app/src/lib.rs and
src/token/token-app/src/lib.rs).

The external collaborators (REST client/transport, wallet, hashing and
signature-encoding libraries) are modelled as an explicit environment
record; each client operation is a pure function of that environment.
Operations that submit solutions additionally return the list of
solutions they handed to the transport, so that error-propagation
properties ("no solution is submitted when an earlier stage fails") are
statable.
-/

/-- A ledger word: the Rust code uses the signed 64-bit `Word` type of
essential-types; the arithmetic performed by these clients is modelled
over the unbounded integers. -/
abbrev Word := Int

/-- A 4-word value: hashed account keys (`[Word; 4]` in the source) and
the two 4-word components of an encoded signature. -/
structure Key4 where
  w0 : Word
  w1 : Word
  w2 : Word
  w3 : Word
deriving DecidableEq, Repr

/-- Flatten a 4-word value, as `to_vec()` does in the source. -/
def Key4.toList (k : Key4) : List Word := [k.w0, k.w1, k.w2, k.w3]

/-- Opaque secp256k1 public-key material held by the wallet. -/
abbrev SecpPubKey := Nat

/-- Opaque secp256k1 signature material returned by the wallet. -/
abbrev SecpSig := Nat

/-- essential-signer public keys: a closed tagged variant; the clients
support only the secp256k1 scheme. -/
inductive PublicKey where
  | secp256k1 (key : SecpPubKey)
  | ed25519 (key : Nat)
deriving DecidableEq, Repr

/-- essential-signer signatures: a closed tagged variant; the clients
support only the secp256k1 scheme. -/
inductive Signature where
  | secp256k1 (sig : SecpSig)
  | ed25519 (sig : Nat)
deriving DecidableEq, Repr

/-- A content address identifying a deployed contract or predicate. -/
abbrev ContentAddress := Nat

/-- essential-types `PredicateAddress`: contract plus predicate. -/
structure PredicateAddress where
  contract : ContentAddress
  predicate : ContentAddress
deriving DecidableEq, Repr

/-- The `([Word; 4], [Word; 4], Word)` triple produced by `sign_data`. -/
structure SigTriple where
  a : Key4
  b : Key4
  c : Word
deriving DecidableEq, Repr

/-- Decision variables of a solution datum. The ABI-generated
`Mint::Vars` and `Transfer::Vars` structs (and their positional word
packing) are generated code outside src/; the constructors record
exactly the named variables the source places in them. The counter
solution uses `Default::default()`, i.e. no decision variables. -/
inductive DecisionVars where
  | empty
  | mintVars (toA : Key4) (amount : Word) (signature : SigTriple)
  | transferVars (fromA : Key4) (toA : Key4) (amount : Word) (signature : SigTriple)
deriving DecidableEq, Repr

/-- essential-types `Mutation`: a storage key and its proposed value. -/
structure Mutation where
  key : List Word
  value : List Word
deriving DecidableEq, Repr

/-- essential-types `SolutionData`. -/
structure SolutionData where
  predicate_to_solve : PredicateAddress
  decision_variables : DecisionVars
  transient_data : List Word
  state_mutations : List Mutation
deriving DecidableEq, Repr

/-- essential-types `Solution`. -/
structure Solution where
  data : List SolutionData
deriving DecidableEq, Repr

/-- Typed errors surfaced by the clients. `invalidPublicKey` and
`invalidSignature` are the two `bail!` sites of the token app;
`malformedState` is the `bail!("Expected one word, ...")` site of both
readers; `walletErr`, `transportErr` and `panicErr` stand for opaque
collaborator failures and an unreachable `unwrap` panic. -/
inductive Err where
  | invalidPublicKey
  | invalidSignature
  | malformedState (got : List Word)
  | walletErr
  | transportErr
  | panicErr
deriving DecidableEq, Repr

/-- The external collaborators: wallet (`get_public_key`, `sign_words`),
transport (`query_state`, `submit_solution`), and the pure library
functions used by the token app: `hashKey` is the composition
`word_4_from_u8_32 (essential_hash::hash_words (essential_sign::encode::public_key pk))`
and `encodeSignature` is `essential_sign::encode::signature` followed by
the 9-word destructuring into the triple. -/
structure Env where
  getPublicKey : String → Except Err PublicKey
  signWords : List Word → String → Except Err Signature
  queryState : ContentAddress → List Word → Except Err (List Word)
  submitResult : Solution → Except Err Unit
  hashKey : SecpPubKey → Key4
  encodeSignature : SecpSig → SigTriple

/-- The counter `App`: its predicate address (client is in the Env). -/
structure CounterApp where
  predicate_address : PredicateAddress
deriving DecidableEq, Repr

/-- The token app `Addresses` struct. -/
structure Addresses where
  token : ContentAddress
  mint : PredicateAddress
  transfer : PredicateAddress
deriving DecidableEq, Repr

/-- The token `App`: its addresses (client and wallet are in the Env). -/
structure TokenApp where
  addresses : Addresses
deriving DecidableEq, Repr

/-- `App::COUNTER_STORAGE_KEY`, `[Word; 1] = [0]` in the source. -/
def COUNTER_STORAGE_KEY : List Word := [0]

/-- Modelled from the spec: the ABI-generated builder
`storage::mutations().counter(v)` (generated from the contract ABI,
which is not under src/) yields one mutation mapping the scalar field
key — the source states this key is `COUNTER_STORAGE_KEY` — to the
one-word value. -/
def storage_mutations_counter (new_count : Word) : List Mutation :=
  [⟨COUNTER_STORAGE_KEY, [new_count]⟩]

/-- Modelled from the spec: the storage key of a `balances` map entry is
the map field index followed by the 4-word entry key (spec section 4.1:
field index + entry-key words for maps; the token contract ABI is not
under src/). -/
def balances_storage_key (account_key : Key4) : List Word :=
  0 :: account_key.toList

/-- Modelled from the spec: the ABI-generated builder
`storage::mutations().balances(|map| map.entry(k, v))` yields one
mutation mapping the map-entry key of `k` to the one-word value. -/
def storage_mutations_balances (account_key : Key4) (value : Word) : List Mutation :=
  [⟨balances_storage_key account_key, [value]⟩]

/-- `App::read_current_counter`: derive the key from the ABI mutation
builder (`mutations.pop().unwrap().key`), query the ledger, and
interpret the result: empty means 0, one word is the value, anything
else is a malformed-state error. -/
def read_current_counter (env : Env) (app : CounterApp) : Except Err Word :=
  match (storage_mutations_counter 0).getLast? with
  | none => .error .panicErr
  | some m =>
    match env.queryState app.predicate_address.contract m.key with
    | .error e => .error e
    | .ok [] => .ok 0
    | .ok [count] => .ok count
    | .ok v => .error (.malformedState v)

/-- `create_solution`: one solution datum with empty decision variables
and the single counter mutation. -/
def create_solution (predicate_address : PredicateAddress) (new_count : Word) : Solution :=
  ⟨[⟨predicate_address, DecisionVars.empty, [], storage_mutations_counter new_count⟩]⟩

/-- `App::increment`: read the counter, add one, craft and submit the
solution, return the new count. The second component is the list of
solutions handed to the transport. -/
def increment (env : Env) (app : CounterApp) : (Except Err Word) × List Solution :=
  match read_current_counter env app with
  | .error e => (.error e, [])
  | .ok current =>
    let new_count := current + 1
    let solution := create_solution app.predicate_address new_count
    match env.submitResult solution with
    | .error e => (.error e, [solution])
    | .ok _ => (.ok new_count, [solution])

/-- `App::get_hashed_key`: look up the account public key in the
wallet, reject any scheme other than secp256k1, and hash the encoded
key into a 4-word account id. -/
def get_hashed_key (env : Env) (account_name : String) : Except Err Key4 :=
  match env.getPublicKey account_name with
  | .error e => .error e
  | .ok (PublicKey.secp256k1 public_key) => .ok (env.hashKey public_key)
  | .ok _ => .error .invalidPublicKey

/-- `App::sign_data`: have the wallet sign the flattened word vector,
reject any scheme other than secp256k1, and encode the signature into
the word-triple layout. -/
def sign_data (env : Env) (account_name : String) (data : List Word) : Except Err SigTriple :=
  match env.signWords data account_name with
  | .error e => .error e
  | .ok (Signature.secp256k1 sig) => .ok (env.encodeSignature sig)
  | .ok _ => .error .invalidSignature

/-- `App::balance`: resolve the account key, derive the map-entry
storage key from the ABI mutation builder, query the ledger, and
interpret the result with the same empty-is-zero policy as the
counter reader. -/
def balance (env : Env) (app : TokenApp) (account_name : String) : Except Err Word :=
  match get_hashed_key env account_name with
  | .error e => .error e
  | .ok account_key =>
    match (storage_mutations_balances account_key 0).getLast? with
    | none => .error .panicErr
    | some m =>
      match env.queryState app.addresses.token m.key with
      | .error e => .error e
      | .ok [] => .ok 0
      | .ok [b] => .ok b
      | .ok v => .error (.malformedState v)

/-- `App::mint`: resolve the destination, read its balance, sign
`to ++ [amount]` with the destination identity, craft the solution
(decision variables `{to, amount, signature}`, one mutation setting the
destination entry to the old balance plus the amount) and submit it. -/
def mint (env : Env) (app : TokenApp) (to_name : String) (amount : Word) :
    (Except Err Unit) × List Solution :=
  match get_hashed_key env to_name with
  | .error e => (.error e, [])
  | .ok toA =>
    match balance env app to_name with
    | .error e => (.error e, [])
    | .ok current_balance =>
      let data_to_sign := toA.toList ++ [amount]
      match sign_data env to_name data_to_sign with
      | .error e => (.error e, [])
      | .ok signature =>
        let solution : Solution :=
          ⟨[⟨app.addresses.mint, DecisionVars.mintVars toA amount signature, [],
             storage_mutations_balances toA (current_balance + amount)⟩]⟩
        match env.submitResult solution with
        | .error e => (.error e, [solution])
        | .ok _ => (.ok (), [solution])

/-- `App::transfer`: resolve both accounts, read both balances, sign
`from ++ to ++ [amount]` with the source identity, craft the solution
(decision variables `{from, to, amount, signature}`, two mutations:
source entry set to its balance minus the amount, destination entry set
to its balance plus the amount) and submit it. -/
def transfer (env : Env) (app : TokenApp) (from_name : String) (to_name : String)
    (amount : Word) : (Except Err Unit) × List Solution :=
  match get_hashed_key env from_name with
  | .error e => (.error e, [])
  | .ok fromA =>
    match get_hashed_key env to_name with
    | .error e => (.error e, [])
    | .ok toA =>
      match balance env app from_name with
      | .error e => (.error e, [])
      | .ok current_from_balance =>
        match balance env app to_name with
        | .error e => (.error e, [])
        | .ok current_to_balance =>
          let data_to_sign := fromA.toList ++ toA.toList ++ [amount]
          match sign_data env from_name data_to_sign with
          | .error e => (.error e, [])
          | .ok signature =>
            let solution : Solution :=
              ⟨[⟨app.addresses.transfer,
                 DecisionVars.transferVars fromA toA amount signature, [],
                 storage_mutations_balances fromA (current_from_balance - amount) ++
                 storage_mutations_balances toA (current_to_balance + amount)⟩]⟩
            match env.submitResult solution with
            | .error e => (.error e, [solution])
            | .ok _ => (.ok (), [solution])

/-- Modelled from the spec: the external ledger holds key/value state;
we model it as an association list where the most recent write is
found first. -/
abbrev Ledger := List (List Word × List Word)

/-- Modelled from the spec: querying the ledger returns the value at
the key, or the empty sequence for a never-written slot. -/
def queryLedger : Ledger → List Word → List Word
  | [], _ => []
  | (k, v) :: rest, key => if key = k then v else queryLedger rest key

/-- Modelled from the spec: the ledger applies an accepted mutation by
setting the slot at its key to its value. -/
def applyMutation (l : Ledger) (m : Mutation) : Ledger :=
  (m.key, m.value) :: l

/-- Modelled from the spec: the ledger applies all mutations of an
accepted solution, in order. -/
def applySolution (l : Ledger) (s : Solution) : Ledger :=
  s.data.foldl (fun acc sd => sd.state_mutations.foldl applyMutation acc) l

/-- Apply every solution of a submission log to the ledger. -/
def applySolutions (l : Ledger) (ss : List Solution) : Ledger :=
  ss.foldl applySolution l

/-- An environment backed by a concrete ledger (queries read the ledger,
submission always succeeds) and explicit wallet and library functions. -/
def ledgerEnv (l : Ledger) (wallet : String → Except Err PublicKey)
    (signer : List Word → String → Except Err Signature)
    (hk : SecpPubKey → Key4) (es : SecpSig → SigTriple) : Env :=
  { getPublicKey := wallet
    signWords := signer
    queryState := fun _ key => .ok (queryLedger l key)
    submitResult := fun _ => .ok ()
    hashKey := hk
    encodeSignature := es }

/-! ## Concrete test fixtures

A small wallet (two distinct keys, plus a second name holding the same
key as the first), a hash function injective on the key material used,
a signer that always returns a secp256k1 signature, and a ledger with
two funded accounts. These are used to instantiate the theorems below
on concrete inputs. -/

/-- Fixture wallet: alice holds key 1, bob key 2, alice2 the same key
as alice; any other name is unknown. -/
def tWallet : String → Except Err PublicKey := fun n =>
  if n = "alice" then .ok (.secp256k1 1)
  else if n = "bob" then .ok (.secp256k1 2)
  else if n = "alice2" then .ok (.secp256k1 1)
  else .error .walletErr

/-- Fixture hash: embeds the key material in the first word. -/
def tHash : SecpPubKey → Key4 := fun pk => ⟨(pk : Int), 0, 0, 0⟩

/-- Fixture signer: always produces a secp256k1 signature. -/
def tSigner : List Word → String → Except Err Signature := fun _ _ => .ok (.secp256k1 0)

/-- Fixture signature encoder. -/
def tEncode : SecpSig → SigTriple := fun _ => ⟨⟨0,0,0,0⟩, ⟨0,0,0,0⟩, 0⟩

/-- Fixture ledger: alice has balance 10, bob has balance 4, the
counter slot was never written. -/
def tLedger : Ledger :=
  [(balances_storage_key ⟨1,0,0,0⟩, [10]), (balances_storage_key ⟨2,0,0,0⟩, [4])]

/-- Fixture environment over the fixture ledger. -/
def tEnv : Env := ledgerEnv tLedger tWallet tSigner tHash tEncode

/-- Fixture token app addresses. -/
def tApp : TokenApp := ⟨⟨7, ⟨7, 1⟩, ⟨7, 2⟩⟩⟩

/-- Fixture counter app address. -/
def cApp : CounterApp := ⟨⟨3, 4⟩⟩

/-- Fixture environment whose ledger has the counter slot set to 41. -/
def cEnv : Env := ledgerEnv [(COUNTER_STORAGE_KEY, [41])] tWallet tSigner tHash tEncode

/-- Fixture environment whose ledger holds a two-word (malformed)
value in both the counter slot and the balance slot of alice. -/
def mEnv : Env :=
  ledgerEnv [(COUNTER_STORAGE_KEY, [1, 2]), (balances_storage_key ⟨1,0,0,0⟩, [3, 4])]
    tWallet tSigner tHash tEncode

/-- Fixture environment whose transport fails every query. -/
def qFailEnv : Env :=
  { getPublicKey := tWallet
    signWords := tSigner
    queryState := fun _ _ => .error .transportErr
    submitResult := fun _ => .ok ()
    hashKey := tHash
    encodeSignature := tEncode }

/-- Fixture environment whose wallet fails every signing request. -/
def sFailEnv : Env := ledgerEnv tLedger tWallet (fun _ _ => .error .walletErr) tHash tEncode

/-- Fixture environment whose wallet returns ed25519 material. -/
def edEnv : Env :=
  ledgerEnv [] (fun _ => .ok (.ed25519 3)) (fun _ _ => .ok (.ed25519 4)) tHash tEncode

/-! ## Helper lemmas -/

/-- Distinct account keys give distinct balances map-entry keys. -/
theorem balances_storage_key_injective {a b : Key4}
    (h : balances_storage_key a = balances_storage_key b) : a = b := by
  cases a
  cases b
  simp [balances_storage_key, Key4.toList] at h
  obtain ⟨h0, h1, h2, h3⟩ := h
  simp [h0, h1, h2, h3]

/-! ## Claims -/

/-- C4: for every current counter value read, increment builds and
submits a solution containing exactly one mutation setting the counter
storage key to the current value plus one, with empty decision
variables, and returns the current value plus one. -/
theorem increment_builds_and_submits (env : Env) (app : CounterApp) (current : Word)
    (hread : read_current_counter env app = .ok current)
    (hsub : ∀ s, env.submitResult s = .ok ()) :
    increment env app =
      (.ok (current + 1),
       [⟨[⟨app.predicate_address, DecisionVars.empty, [],
           [⟨COUNTER_STORAGE_KEY, [current + 1]⟩]⟩]⟩]) := by
  simp [increment, hread, hsub, create_solution, storage_mutations_counter]

/-- Witness for C4: on the fixture ledger whose counter slot holds 41,
increment proposes exactly the mutation setting the counter key to 42
and returns 42. -/
theorem increment_builds_and_submits_witness :
    increment cEnv cApp =
      (.ok 42,
       [⟨[⟨cApp.predicate_address, DecisionVars.empty, [],
           [⟨COUNTER_STORAGE_KEY, [42]⟩]⟩]⟩]) :=
  increment_builds_and_submits cEnv cApp 41 rfl (fun _ => rfl)

/-- C3: every scalar read (the counter reader and the balance reader)
returns 0 on an empty query result, the single word on a length-one
result, and fails with the malformed-state error on any longer result,
never returning the first element. -/
theorem scalar_read_policy (env : Env) (capp : CounterApp) (tapp : TokenApp)
    (name : String) (pk : SecpPubKey) (vs ws : List Word)
    (hq : env.queryState capp.predicate_address.contract COUNTER_STORAGE_KEY = .ok vs)
    (hpk : env.getPublicKey name = .ok (.secp256k1 pk))
    (hw : env.queryState tapp.addresses.token (balances_storage_key (env.hashKey pk)) = .ok ws) :
    (vs = [] → read_current_counter env capp = .ok 0) ∧
    (∀ w, vs = [w] → read_current_counter env capp = .ok w) ∧
    (2 ≤ vs.length → read_current_counter env capp = .error (.malformedState vs)) ∧
    (ws = [] → balance env tapp name = .ok 0) ∧
    (∀ w, ws = [w] → balance env tapp name = .ok w) ∧
    (2 ≤ ws.length → balance env tapp name = .error (.malformedState ws)) := by
  refine ⟨?_, ?_, ?_, ?_, ?_, ?_⟩
  · intro h
    subst h
    simp [read_current_counter, storage_mutations_counter, hq]
  · intro w h
    subst h
    simp [read_current_counter, storage_mutations_counter, hq]
  · intro h
    match vs, h with
    | a :: b :: t, _ =>
      simp [read_current_counter, storage_mutations_counter, hq]
  · intro h
    subst h
    simp [balance, get_hashed_key, hpk, storage_mutations_balances, hw]
  · intro w h
    subst h
    simp [balance, get_hashed_key, hpk, storage_mutations_balances, hw]
  · intro h
    match ws, h with
    | a :: b :: t, _ =>
      simp [balance, get_hashed_key, hpk, storage_mutations_balances, hw]

/-- Witness for C3: with the fixture ledger the never-written counter
slot reads as 0 and the one-word balance slot of alice reads as its
value 10; with the malformed fixture ledger both readers fail with the
malformed-state error carrying the offending two-word sequences. -/
theorem scalar_read_policy_witness :
    (read_current_counter tEnv cApp = .ok 0 ∧ balance tEnv tApp "alice" = .ok 10) ∧
    (read_current_counter mEnv cApp = .error (.malformedState [1, 2]) ∧
     balance mEnv tApp "alice" = .error (.malformedState [3, 4])) := by
  constructor
  · exact ⟨(scalar_read_policy tEnv cApp tApp "alice" 1 [] [10] rfl rfl rfl).1 rfl,
           (scalar_read_policy tEnv cApp tApp "alice" 1 [] [10] rfl rfl rfl).2.2.2.2.1 10 rfl⟩
  · exact ⟨(scalar_read_policy mEnv cApp tApp "alice" 1 [1, 2] [3, 4] rfl rfl rfl).2.2.1
             (by norm_num),
           (scalar_read_policy mEnv cApp tApp "alice" 1 [1, 2] [3, 4] rfl rfl rfl).2.2.2.2.2
             (by norm_num)⟩

/-- C2: when mint succeeds it builds a solution whose decision
variables are the destination key, the amount and the signature, the
signature being requested over exactly the flattened vector of the
4-word destination key followed by the amount, and whose state
mutations are exactly one entry setting the destination map-entry key
to the balance read in the same call plus the amount. -/
theorem mint_builds_solution (env : Env) (app : TokenApp) (to_name : String)
    (pk : SecpPubKey) (current_balance amount : Word) (sg : SecpSig)
    (hpk : env.getPublicKey to_name = .ok (.secp256k1 pk))
    (hbal : balance env app to_name = .ok current_balance)
    (hsig : env.signWords ((env.hashKey pk).toList ++ [amount]) to_name = .ok (.secp256k1 sg))
    (hsub : ∀ s, env.submitResult s = .ok ()) :
    mint env app to_name amount =
      (.ok (),
       [⟨[⟨app.addresses.mint,
           DecisionVars.mintVars (env.hashKey pk) amount (env.encodeSignature sg), [],
           [⟨balances_storage_key (env.hashKey pk), [current_balance + amount]⟩]⟩]⟩]) := by
  simp [mint, get_hashed_key, hpk, hbal, sign_data, hsig, hsub, storage_mutations_balances]

/-- Witness for C2: minting 5 to bob (current balance 4) on the fixture
environment submits exactly the solution with decision variables
{bob-key, 5, encoded signature} and the single mutation setting the
bob map-entry to 9. -/
theorem mint_builds_solution_witness :
    mint tEnv tApp "bob" 5 =
      (.ok (),
       [⟨[⟨tApp.addresses.mint,
           DecisionVars.mintVars ⟨2,0,0,0⟩ 5 (tEncode 0), [],
           [⟨balances_storage_key ⟨2,0,0,0⟩, [9]⟩]⟩]⟩]) :=
  mint_builds_solution tEnv tApp "bob" 2 4 5 0 rfl rfl rfl (fun _ => rfl)

/-- C1: when transfer succeeds it builds a solution whose decision
variables are the source key, destination key, amount and signature,
the signature being requested over exactly the flattened vector of the
4-word source key, the 4-word destination key and the amount, and
whose state mutations are exactly two entries setting the source
map-entry key to its balance minus the amount and the destination
map-entry key to its balance plus the amount; no hypothesis requires
the source balance minus the amount to be non-negative. -/
theorem transfer_builds_solution (env : Env) (app : TokenApp)
    (from_name to_name : String) (pkF pkT : SecpPubKey)
    (current_from_balance current_to_balance amount : Word) (sg : SecpSig)
    (hpkF : env.getPublicKey from_name = .ok (.secp256k1 pkF))
    (hpkT : env.getPublicKey to_name = .ok (.secp256k1 pkT))
    (hbf : balance env app from_name = .ok current_from_balance)
    (hbt : balance env app to_name = .ok current_to_balance)
    (hsig : env.signWords ((env.hashKey pkF).toList ++ (env.hashKey pkT).toList ++ [amount])
        from_name = .ok (.secp256k1 sg))
    (hsub : ∀ s, env.submitResult s = .ok ()) :
    transfer env app from_name to_name amount =
      (.ok (),
       [⟨[⟨app.addresses.transfer,
           DecisionVars.transferVars (env.hashKey pkF) (env.hashKey pkT) amount
             (env.encodeSignature sg), [],
           [⟨balances_storage_key (env.hashKey pkF), [current_from_balance - amount]⟩,
            ⟨balances_storage_key (env.hashKey pkT), [current_to_balance + amount]⟩]⟩]⟩]) := by
  have hsig2 : env.signWords
      ((env.hashKey pkF).toList ++ ((env.hashKey pkT).toList ++ [amount])) from_name =
      .ok (.secp256k1 sg) := by
    rw [← List.append_assoc]
    exact hsig
  simp [transfer, get_hashed_key, hpkF, hpkT, hbf, hbt, sign_data, hsig2, hsub,
    storage_mutations_balances]

/-- Witness for C1: transferring 50 from alice (balance 10) to bob
(balance 4) succeeds client-side even though 10 - 50 is negative: the
submitted solution carries the mutation setting the alice map-entry to
-40 and the bob map-entry to 54, demonstrating the absence of a
client-side sufficient-funds check. -/
theorem transfer_builds_solution_witness :
    transfer tEnv tApp "alice" "bob" 50 =
      (.ok (),
       [⟨[⟨tApp.addresses.transfer,
           DecisionVars.transferVars ⟨1,0,0,0⟩ ⟨2,0,0,0⟩ 50 (tEncode 0), [],
           [⟨balances_storage_key ⟨1,0,0,0⟩, [-40]⟩,
            ⟨balances_storage_key ⟨2,0,0,0⟩, [54]⟩]⟩]⟩]) :=
  transfer_builds_solution tEnv tApp "alice" "bob" 1 2 10 4 50 0 rfl rfl rfl rfl rfl
    (fun _ => rfl)

/-- C5 counterexample: transferring 5 from alice to alice (prior
balance 10, so the sufficient-funds condition 5 <= 10 holds) succeeds,
and after the ledger applies both proposed mutations the balance of
the source account alice is 15: it does not decrease by the amount,
and the sum of source and destination balances changes from 20 to 30.
The claim as stated is therefore false when source and destination
coincide: the two mutations target the same map-entry key and the
destination write overwrites the source write. -/
theorem transfer_conservation_self_counterexample :
    (transfer tEnv tApp "alice" "alice" 5).1 = .ok () ∧
    balance tEnv tApp "alice" = .ok 10 ∧
    (5 : Word) ≤ 10 ∧
    balance
      (ledgerEnv (applySolutions tLedger (transfer tEnv tApp "alice" "alice" 5).2)
        tWallet tSigner tHash tEncode) tApp "alice" = .ok 15 ∧
    ¬ ((15 : Word) = 10 - 5) ∧
    ¬ ((15 : Word) + 15 = 10 + 10) := by
  refine ⟨rfl, rfl, by norm_num, rfl, by norm_num, by norm_num⟩

/-- C5 amended: for a transfer between accounts whose keys hash to
distinct account ids, when the transfer succeeds with sufficient prior
source balance and the ledger applies both proposed mutations, the
source balance decreases by the amount, the destination balance
increases by the amount, and their sum is unchanged. -/
theorem transfer_conservation (l : Ledger) (w : String → Except Err PublicKey)
    (sgn : List Word → String → Except Err Signature) (hk : SecpPubKey → Key4)
    (es : SecpSig → SigTriple) (app : TokenApp) (from_name to_name : String)
    (pkF pkT : SecpPubKey) (bf bt amount : Word) (sg : SecpSig)
    (hwF : w from_name = .ok (.secp256k1 pkF))
    (hwT : w to_name = .ok (.secp256k1 pkT))
    (hdistinct : hk pkF ≠ hk pkT)
    (hbf : balance (ledgerEnv l w sgn hk es) app from_name = .ok bf)
    (hbt : balance (ledgerEnv l w sgn hk es) app to_name = .ok bt)
    (hsig : sgn ((hk pkF).toList ++ (hk pkT).toList ++ [amount]) from_name =
      .ok (.secp256k1 sg))
    (hsuff : amount ≤ bf) :
    (transfer (ledgerEnv l w sgn hk es) app from_name to_name amount).1 = .ok () ∧
    balance
      (ledgerEnv
        (applySolutions l (transfer (ledgerEnv l w sgn hk es) app from_name to_name amount).2)
        w sgn hk es) app from_name = .ok (bf - amount) ∧
    balance
      (ledgerEnv
        (applySolutions l (transfer (ledgerEnv l w sgn hk es) app from_name to_name amount).2)
        w sgn hk es) app to_name = .ok (bt + amount) ∧
    (bf - amount) + (bt + amount) = bf + bt := by
  have hghF : get_hashed_key (ledgerEnv l w sgn hk es) from_name = .ok (hk pkF) := by
    simp [get_hashed_key, ledgerEnv, hwF]
  have hghT : get_hashed_key (ledgerEnv l w sgn hk es) to_name = .ok (hk pkT) := by
    simp [get_hashed_key, ledgerEnv, hwT]
  have hsd : sign_data (ledgerEnv l w sgn hk es) from_name
      ((hk pkF).toList ++ (hk pkT).toList ++ [amount]) = .ok (es sg) := by
    unfold sign_data ledgerEnv
    dsimp only
    rw [hsig]
  have hsub2 : ∀ s, (ledgerEnv l w sgn hk es).submitResult s = .ok () := fun _ => rfl
  have htr : transfer (ledgerEnv l w sgn hk es) app from_name to_name amount =
      (.ok (),
       [⟨[⟨app.addresses.transfer,
           DecisionVars.transferVars (hk pkF) (hk pkT) amount (es sg), [],
           [⟨balances_storage_key (hk pkF), [bf - amount]⟩,
            ⟨balances_storage_key (hk pkT), [bt + amount]⟩]⟩]⟩]) := by
    unfold transfer
    simp only [hghF, hghT, hbf, hbt, hsd, hsub2, storage_mutations_balances,
      List.cons_append, List.nil_append]
  have hkeyne : balances_storage_key (hk pkF) ≠ balances_storage_key (hk pkT) :=
    fun hEq => hdistinct (balances_storage_key_injective hEq)
  have hledger : applySolutions l
      (transfer (ledgerEnv l w sgn hk es) app from_name to_name amount).2 =
      (balances_storage_key (hk pkT), [bt + amount]) ::
      (balances_storage_key (hk pkF), [bf - amount]) :: l := by
    rw [htr]
    simp [applySolutions, applySolution, applyMutation]
  refine ⟨by rw [htr], ?_, ?_, by ring⟩
  · rw [hledger]
    simp [balance, get_hashed_key, ledgerEnv, hwF, storage_mutations_balances,
      queryLedger, hkeyne]
  · rw [hledger]
    simp [balance, get_hashed_key, ledgerEnv, hwT, storage_mutations_balances,
      queryLedger]

/-- Witness for C5 amended: transferring 5 from alice (balance 10) to
bob (balance 4) on the fixture ledger, whose account ids are distinct,
leaves alice with 5 and bob with 9, and 5 + 9 = 10 + 4. -/
theorem transfer_conservation_witness :
    (transfer (ledgerEnv tLedger tWallet tSigner tHash tEncode) tApp "alice" "bob" 5).1 =
      .ok () ∧
    balance
      (ledgerEnv
        (applySolutions tLedger
          (transfer (ledgerEnv tLedger tWallet tSigner tHash tEncode) tApp "alice" "bob" 5).2)
        tWallet tSigner tHash tEncode) tApp "alice" = .ok 5 ∧
    balance
      (ledgerEnv
        (applySolutions tLedger
          (transfer (ledgerEnv tLedger tWallet tSigner tHash tEncode) tApp "alice" "bob" 5).2)
        tWallet tSigner tHash tEncode) tApp "bob" = .ok 9 ∧
    (5 : Word) + 9 = 10 + 4 := by
  have h := transfer_conservation tLedger tWallet tSigner tHash tEncode tApp
    "alice" "bob" 1 2 10 4 5 0 rfl rfl (by decide) rfl rfl rfl (by norm_num)
  exact ⟨h.1, h.2.1, h.2.2.1, by norm_num⟩

/-- C6: resolving an account name twice against an unchanged wallet
yields the same account id, and two names whose wallet entries hold
the same public key resolve to the same account id: the id is a
function of the key only, not of the name. -/
theorem resolve_deterministic (env : Env) (n1 n2 : String)
    (hsame : env.getPublicKey n1 = env.getPublicKey n2) :
    get_hashed_key env n1 = get_hashed_key env n1 ∧
    get_hashed_key env n1 = get_hashed_key env n2 := by
  refine ⟨rfl, ?_⟩
  unfold get_hashed_key
  rw [hsame]

/-- Witness for C6: alice and alice2 hold the same key in the fixture
wallet and resolve to the same account id. -/
theorem resolve_deterministic_witness :
    get_hashed_key tEnv "alice" = get_hashed_key tEnv "alice" ∧
    get_hashed_key tEnv "alice" = get_hashed_key tEnv "alice2" :=
  resolve_deterministic tEnv "alice" "alice2" rfl

/-- C7: a wallet response of an unexpected cryptographic scheme makes
the client fail with a typed error: identity resolution fails with the
invalid-public-key error when the looked-up key is not secp256k1, and
signing fails with the invalid-signature error when the wallet returns
a signature that is not secp256k1. -/
theorem unsupported_scheme_errors :
    (∀ (env : Env) (n : String) (k : Nat),
      env.getPublicKey n = .ok (.ed25519 k) →
      get_hashed_key env n = .error .invalidPublicKey) ∧
    (∀ (env : Env) (n : String) (d : List Word) (s : Nat),
      env.signWords d n = .ok (.ed25519 s) →
      sign_data env n d = .error .invalidSignature) := by
  constructor
  · intro env n k h
    simp [get_hashed_key, h]
  · intro env n d s h
    simp [sign_data, h]

/-- Witness for C7: on the fixture environment whose wallet returns
ed25519 material, identity resolution and signing fail with the two
typed errors. -/
theorem unsupported_scheme_errors_witness :
    get_hashed_key edEnv "alice" = .error .invalidPublicKey ∧
    sign_data edEnv "alice" [1] = .error .invalidSignature :=
  ⟨unsupported_scheme_errors.1 edEnv "alice" 3 rfl,
   unsupported_scheme_errors.2 edEnv "alice" [1] 4 rfl⟩

/-- C8: in increment, mint and transfer, a failure of any stage before
submission (identity resolution, balance or counter read, signing)
makes the operation return that first error with an empty submission
log: no solution is handed to the transport. -/
theorem first_error_propagates :
    (∀ (env : Env) (app : CounterApp) (e : Err),
      read_current_counter env app = .error e →
      increment env app = (.error e, [])) ∧
    (∀ (env : Env) (app : TokenApp) (n : String) (a : Word) (e : Err),
      get_hashed_key env n = .error e →
      mint env app n a = (.error e, [])) ∧
    (∀ (env : Env) (app : TokenApp) (n : String) (a : Word) (e : Err) (k : Key4),
      get_hashed_key env n = .ok k →
      balance env app n = .error e →
      mint env app n a = (.error e, [])) ∧
    (∀ (env : Env) (app : TokenApp) (n : String) (a b : Word) (e : Err) (k : Key4),
      get_hashed_key env n = .ok k →
      balance env app n = .ok b →
      sign_data env n (k.toList ++ [a]) = .error e →
      mint env app n a = (.error e, [])) ∧
    (∀ (env : Env) (app : TokenApp) (fn tn : String) (a : Word) (e : Err),
      get_hashed_key env fn = .error e →
      transfer env app fn tn a = (.error e, [])) ∧
    (∀ (env : Env) (app : TokenApp) (fn tn : String) (a : Word) (e : Err) (kf : Key4),
      get_hashed_key env fn = .ok kf →
      get_hashed_key env tn = .error e →
      transfer env app fn tn a = (.error e, [])) ∧
    (∀ (env : Env) (app : TokenApp) (fn tn : String) (a : Word) (e : Err) (kf kt : Key4),
      get_hashed_key env fn = .ok kf →
      get_hashed_key env tn = .ok kt →
      balance env app fn = .error e →
      transfer env app fn tn a = (.error e, [])) ∧
    (∀ (env : Env) (app : TokenApp) (fn tn : String) (a bf : Word) (e : Err) (kf kt : Key4),
      get_hashed_key env fn = .ok kf →
      get_hashed_key env tn = .ok kt →
      balance env app fn = .ok bf →
      balance env app tn = .error e →
      transfer env app fn tn a = (.error e, [])) ∧
    (∀ (env : Env) (app : TokenApp) (fn tn : String) (a bf bt : Word) (e : Err) (kf kt : Key4),
      get_hashed_key env fn = .ok kf →
      get_hashed_key env tn = .ok kt →
      balance env app fn = .ok bf →
      balance env app tn = .ok bt →
      sign_data env fn (kf.toList ++ kt.toList ++ [a]) = .error e →
      transfer env app fn tn a = (.error e, [])) := by
  refine ⟨?_, ?_, ?_, ?_, ?_, ?_, ?_, ?_, ?_⟩
  · intro env app e h
    simp [increment, h]
  · intro env app n a e h
    simp [mint, h]
  · intro env app n a e k h1 h2
    simp [mint, h1, h2]
  · intro env app n a b e k h1 h2 h3
    unfold mint
    simp only [h1, h2, h3]
  · intro env app fn tn a e h
    simp [transfer, h]
  · intro env app fn tn a e kf h1 h2
    simp [transfer, h1, h2]
  · intro env app fn tn a e kf kt h1 h2 h3
    simp [transfer, h1, h2, h3]
  · intro env app fn tn a bf e kf kt h1 h2 h3 h4
    simp [transfer, h1, h2, h3, h4]
  · intro env app fn tn a bf bt e kf kt h1 h2 h3 h4 h5
    unfold transfer
    simp only [h1, h2, h3, h4, h5]

/-- Witness for C8: a failing transport makes increment fail with the
transport error and an empty submission log; a failing signer makes
mint fail with the wallet error and an empty submission log; a failing
transport makes transfer fail at the first balance read with the
transport error and an empty submission log. -/
theorem first_error_propagates_witness :
    increment qFailEnv cApp = (.error .transportErr, []) ∧
    mint sFailEnv tApp "alice" 5 = (.error .walletErr, []) ∧
    transfer qFailEnv tApp "alice" "bob" 5 = (.error .transportErr, []) :=
  ⟨first_error_propagates.1 qFailEnv cApp .transportErr rfl,
   first_error_propagates.2.2.2.1 sFailEnv tApp "alice" 5 10 .walletErr ⟨1,0,0,0⟩
     rfl rfl rfl,
   first_error_propagates.2.2.2.2.2.2.1 qFailEnv tApp "alice" "bob" 5 .transportErr
     ⟨1,0,0,0⟩ ⟨2,0,0,0⟩ rfl rfl rfl⟩

/-- C9: reads and writes target the same slot. The solution built for
increment mutates exactly the counter storage key, and the counter
reader queried at that key returns the stored word; for every resolved
account, the solution built by mint mutates exactly the balances
map-entry key of that account, the solution built by transfer mutates
exactly the map-entry keys of the two resolved accounts, and the
balance reader queried at the map-entry key returns the stored word;
both sides use the one mutation-builder key derivation. -/
theorem read_write_same_key :
    (∀ (app : CounterApp) (nc : Word),
      (create_solution app.predicate_address nc).data.map
          (fun sd => sd.state_mutations.map Mutation.key) = [[COUNTER_STORAGE_KEY]]) ∧
    (∀ (env : Env) (app : CounterApp) (r : Word),
      env.queryState app.predicate_address.contract COUNTER_STORAGE_KEY = .ok [r] →
      read_current_counter env app = .ok r) ∧
    (∀ (env : Env) (app : TokenApp) (tn : String) (pk : SecpPubKey) (b a : Word)
        (sg : SecpSig),
      env.getPublicKey tn = .ok (.secp256k1 pk) →
      balance env app tn = .ok b →
      env.signWords ((env.hashKey pk).toList ++ [a]) tn = .ok (.secp256k1 sg) →
      (mint env app tn a).2.map
          (fun s => s.data.map (fun sd => sd.state_mutations.map Mutation.key)) =
        [[[balances_storage_key (env.hashKey pk)]]]) ∧
    (∀ (env : Env) (app : TokenApp) (fn tn : String) (pkF pkT : SecpPubKey)
        (bf bt a : Word) (sg : SecpSig),
      env.getPublicKey fn = .ok (.secp256k1 pkF) →
      env.getPublicKey tn = .ok (.secp256k1 pkT) →
      balance env app fn = .ok bf →
      balance env app tn = .ok bt →
      env.signWords ((env.hashKey pkF).toList ++ (env.hashKey pkT).toList ++ [a]) fn =
        .ok (.secp256k1 sg) →
      (transfer env app fn tn a).2.map
          (fun s => s.data.map (fun sd => sd.state_mutations.map Mutation.key)) =
        [[[balances_storage_key (env.hashKey pkF), balances_storage_key (env.hashKey pkT)]]]) ∧
    (∀ (env : Env) (app : TokenApp) (n : String) (pk : SecpPubKey) (r : Word),
      env.getPublicKey n = .ok (.secp256k1 pk) →
      env.queryState app.addresses.token (balances_storage_key (env.hashKey pk)) = .ok [r] →
      balance env app n = .ok r) := by
  refine ⟨?_, ?_, ?_, ?_, ?_⟩
  · intro app nc
    simp [create_solution, storage_mutations_counter]
  · intro env app r h
    simp [read_current_counter, storage_mutations_counter, h]
  · intro env app tn pk b a sg hpk hbal hsig
    have hgh : get_hashed_key env tn = .ok (env.hashKey pk) := by
      simp [get_hashed_key, hpk]
    have hsd : sign_data env tn ((env.hashKey pk).toList ++ [a]) =
        .ok (env.encodeSignature sg) := by
      unfold sign_data
      rw [hsig]
    unfold mint
    simp only [hgh, hbal, hsd]
    cases env.submitResult
      ⟨[⟨app.addresses.mint,
         DecisionVars.mintVars (env.hashKey pk) a (env.encodeSignature sg), [],
         storage_mutations_balances (env.hashKey pk) (b + a)⟩]⟩ with
    | error e => simp [storage_mutations_balances]
    | ok u => simp [storage_mutations_balances]
  · intro env app fn tn pkF pkT bf bt a sg hpkF hpkT hbf hbt hsig
    have hghF : get_hashed_key env fn = .ok (env.hashKey pkF) := by
      simp [get_hashed_key, hpkF]
    have hghT : get_hashed_key env tn = .ok (env.hashKey pkT) := by
      simp [get_hashed_key, hpkT]
    have hsd : sign_data env fn
        ((env.hashKey pkF).toList ++ (env.hashKey pkT).toList ++ [a]) =
        .ok (env.encodeSignature sg) := by
      unfold sign_data
      rw [hsig]
    unfold transfer
    simp only [hghF, hghT, hbf, hbt, hsd]
    cases env.submitResult
      ⟨[⟨app.addresses.transfer,
         DecisionVars.transferVars (env.hashKey pkF) (env.hashKey pkT) a
           (env.encodeSignature sg), [],
         storage_mutations_balances (env.hashKey pkF) (bf - a) ++
         storage_mutations_balances (env.hashKey pkT) (bt + a)⟩]⟩ with
    | error e => simp [storage_mutations_balances]
    | ok u => simp [storage_mutations_balances]
  · intro env app n pk r hpk hq
    simp [balance, get_hashed_key, hpk, storage_mutations_balances, hq]

/-- Witness for C9: on the fixture environment the increment solution
mutates exactly the counter key, the counter slot set to 41 reads back
as 41, the mint and transfer solutions mutate exactly the resolved
map-entry keys, and the alice balance slot holding 10 reads back as
10. -/
theorem read_write_same_key_witness :
    (create_solution cApp.predicate_address 42).data.map
        (fun sd => sd.state_mutations.map Mutation.key) = [[COUNTER_STORAGE_KEY]] ∧
    read_current_counter cEnv cApp = .ok 41 ∧
    (mint tEnv tApp "bob" 5).2.map
        (fun s => s.data.map (fun sd => sd.state_mutations.map Mutation.key)) =
      [[[balances_storage_key ⟨2,0,0,0⟩]]] ∧
    (transfer tEnv tApp "alice" "bob" 5).2.map
        (fun s => s.data.map (fun sd => sd.state_mutations.map Mutation.key)) =
      [[[balances_storage_key ⟨1,0,0,0⟩, balances_storage_key ⟨2,0,0,0⟩]]] ∧
    balance tEnv tApp "alice" = .ok 10 :=
  ⟨read_write_same_key.1 cApp 42,
   read_write_same_key.2.1 cEnv cApp 41 rfl,
   read_write_same_key.2.2.1 tEnv tApp "bob" 2 4 5 0 rfl rfl rfl,
   read_write_same_key.2.2.2.1 tEnv tApp "alice" "bob" 1 2 10 4 5 0 rfl rfl rfl rfl rfl,
   read_write_same_key.2.2.2.2 tEnv tApp "alice" 1 10 rfl rfl⟩

/-- Fixture signer that refuses to sign for bob but behaves like the
fixture signer for every other name. -/
def noBobSigner : List Word → String → Except Err Signature := fun d n =>
  if n = "bob" then .error .walletErr else tSigner d n

/-- C10: the authorizing identity is per operation. The outcome of
mint depends on the signing collaborator only through requests made
under the destination name, and the outcome of transfer depends on it
only through requests made under the source name: replacing the signer
by any function that agrees on that one identity (and may differ
arbitrarily on every other name, in particular on the transfer
recipient, who therefore never signs) leaves the result unchanged. -/
theorem signing_identity_per_operation :
    (∀ (env : Env) (f : List Word → String → Except Err Signature) (app : TokenApp)
        (to_name : String) (amount : Word),
      (∀ d, f d to_name = env.signWords d to_name) →
      mint { env with signWords := f } app to_name amount = mint env app to_name amount) ∧
    (∀ (env : Env) (f : List Word → String → Except Err Signature) (app : TokenApp)
        (from_name to_name : String) (amount : Word),
      (∀ d, f d from_name = env.signWords d from_name) →
      transfer { env with signWords := f } app from_name to_name amount =
        transfer env app from_name to_name amount) := by
  constructor
  · intro env f app to_name amount h
    obtain ⟨gp, sw, qs, sr, hk, es⟩ := env
    simp only at h
    unfold mint balance get_hashed_key sign_data
    simp [storage_mutations_balances, h]
  · intro env f app from_name to_name amount h
    obtain ⟨gp, sw, qs, sr, hk, es⟩ := env
    simp only at h
    unfold transfer balance get_hashed_key sign_data
    simp [storage_mutations_balances, h]

/-- Witness for C10: on the fixture environment, replacing the signer
by one that refuses to sign for bob leaves a transfer from alice to
bob unchanged: the recipient never signs. -/
theorem signing_identity_per_operation_witness :
    transfer { tEnv with signWords := noBobSigner } tApp "alice" "bob" 5 =
      transfer tEnv tApp "alice" "bob" 5 :=
  signing_identity_per_operation.2 tEnv noBobSigner tApp "alice" "bob" 5 (fun _ => rfl)
